import Mathlib

/-!
Shallow embedding of the `simplelists` to-do web application (Go), covering
the SQLite-backed storage model (`db.go`) and the token-based HTTP server
(sign-in/sign-out, CSRF double-submit guard, list/item handlers).

Timestamps are modelled as natural numbers counting seconds; SQLite rows are
modelled as Lean lists of row structures, `WHERE` clauses as filters,
`ORDER BY` as sorting, and the handlers as pure functions from a request and
a database state to a response and a new database state.  Randomly generated
values (list IDs, sign-in tokens, CSRF token bytes) and the current time are
passed in as explicit parameters; bcrypt verification is an abstract boolean
function carried in the server configuration.
-/

namespace SimpleLists

/-- 90 days in seconds: the sign-in validity window used by
`IsSignInValid` and the sign-in cookie max-age. -/
def days90 : Nat := 90 * 24 * 60 * 60

/-! ## Storage rows (schema from `NewSQLModel` in db.go) -/

/-- A row of the `lists` table: `lists(id, time_created, name, time_deleted)`.
`timeDeleted = none` means the list is live; `some t` is the soft-delete marker. -/
structure ListRow where
  id : String
  timeCreated : Nat
  name : String
  timeDeleted : Option Nat
deriving Repr, DecidableEq

/-- A row of the `items` table:
`items(id, list_id, time_created, description, done, time_deleted)`.
`id` is the SQLite auto-increment INTEGER primary key. -/
structure ItemRow where
  id : Nat
  listId : String
  timeCreated : Nat
  description : String
  done : Bool
  timeDeleted : Option Nat
deriving Repr, DecidableEq

/-- A row of the `sign_ins` table: `sign_ins(id, time_created)`. -/
structure SignInRow where
  id : String
  timeCreated : Nat
deriving Repr, DecidableEq

/-- The database state.  `nextItemId` models SQLite's auto-increment id for
the `items` table (item rows are never hard-deleted, so a counter is exact). -/
structure DB where
  lists : List ListRow
  items : List ItemRow
  signIns : List SignInRow
  nextItemId : Nat
deriving Repr, DecidableEq

/-- The empty database, as created by `NewSQLModel` on a fresh file. -/
def DB.empty : DB := ⟨[], [], [], 1⟩

/-! ## Query results (the Go `List` and `Item` structs) -/

/-- The Go `Item` struct as scanned from a query: the INTEGER id is scanned
into a string field. -/
structure ItemOut where
  id : String
  description : String
  done : Bool
deriving Repr, DecidableEq

/-- The Go `List` struct as returned from a query. -/
structure ListOut where
  id : String
  timeCreated : Nat
  name : String
  items : List ItemOut
deriving Repr, DecidableEq

/-- `ORDER BY time_created DESC` comparison on list rows. -/
def listRowLE (a b : ListRow) : Prop := b.timeCreated ≤ a.timeCreated

instance : DecidableRel listRowLE := fun a b => Nat.decLe b.timeCreated a.timeCreated

instance : IsTotal ListRow listRowLE := ⟨fun a b => (Nat.le_total a.timeCreated b.timeCreated).symm⟩

instance : IsTrans ListRow listRowLE := ⟨fun _ _ _ hab hbc => Nat.le_trans hbc hab⟩

/-- `ORDER BY id` (ascending) comparison on item rows. -/
def itemRowLE (a b : ItemRow) : Prop := a.id ≤ b.id

instance : DecidableRel itemRowLE := fun a b => Nat.decLe a.id b.id

instance : IsTotal ItemRow itemRowLE := ⟨fun a b => Nat.le_total a.id b.id⟩

instance : IsTrans ItemRow itemRowLE := ⟨fun _ _ _ hab hbc => Nat.le_trans hab hbc⟩

/-- Conversion of a `lists` row to the Go `List` struct as scanned by
`GetLists` (`SELECT id, name, time_created`; `Items` left nil). -/
def listRowOut (row : ListRow) : ListOut := ⟨row.id, row.timeCreated, row.name, []⟩

/-- Conversion of an `items` row to the Go `Item` struct as scanned by
`getListItems` (`SELECT id, description, done`; the INTEGER id prints in
decimal). -/
def itemRowOut (row : ItemRow) : ItemOut := ⟨toString row.id, row.description, row.done⟩

/-! ## Storage operations (methods of `SQLModel` in db.go) -/

/-- `GetLists`: `SELECT id, name, time_created FROM lists WHERE time_deleted
IS NULL ORDER BY time_created DESC`; no items attached. -/
def GetLists (db : DB) : List ListOut :=
  ((db.lists.filter (fun row => row.timeDeleted.isNone)).insertionSort listRowLE).map listRowOut

/-- `CreateList`: `INSERT INTO lists (id, name, time_created) VALUES (?, ?, ?)`.
The randomly generated id and the current time are passed in explicitly. -/
def CreateList (db : DB) (id name : String) (now : Nat) : DB :=
  { db with lists := db.lists ++ [⟨id, now, name, none⟩] }

/-- `DeleteList`: `UPDATE lists SET time_deleted = CURRENT_TIMESTAMP WHERE id = ?`.
Soft delete; not an error if the list doesn't exist. -/
def DeleteList (db : DB) (id : String) (now : Nat) : DB :=
  { db with lists := db.lists.map (fun row =>
      if row.id = id then { row with timeDeleted := some now } else row) }

/-- `getListItems`: `SELECT id, description, done FROM items WHERE list_id = ?
AND time_deleted IS NULL ORDER BY id`. -/
def getListItems (db : DB) (listID : String) : List ItemOut :=
  ((db.items.filter (fun it => it.listId == listID && it.timeDeleted.isNone)).insertionSort
    itemRowLE).map itemRowOut

/-- `GetList`: `SELECT id, name FROM lists WHERE id = ? AND time_deleted IS
NULL` (first matching row), then attach `getListItems`.  The `sql.ErrNoRows`
case returns the not-found sentinel (`nil, nil` in Go), modelled as `none`;
note `time_created` is not scanned, so `TimeCreated` stays zero. -/
def GetList (db : DB) (id : String) : Option ListOut :=
  match db.lists.find? (fun row => row.id == id && row.timeDeleted.isNone) with
  | none => none
  | some row => some ⟨row.id, 0, row.name, getListItems db id⟩

/-- `AddItem`: `INSERT INTO items (list_id, description) VALUES (?, ?)`,
returning the generated id (`LastInsertId`, printed in decimal). -/
def AddItem (db : DB) (listID description : String) (now : Nat) : DB × String :=
  ({ db with
      items := db.items ++ [⟨db.nextItemId, listID, now, description, false, none⟩],
      nextItemId := db.nextItemId + 1 },
   toString db.nextItemId)

/-- Row match for `WHERE list_id = ? AND id = ?` with the handler's string
item id compared against the INTEGER column (canonical decimal form). -/
def itemMatches (it : ItemRow) (listID itemID : String) : Bool :=
  it.listId == listID && toString it.id == itemID

/-- `UpdateDone`: `UPDATE items SET done = ? WHERE list_id = ? AND id = ?`.
Affects zero rows (a no-op) when the pair doesn't match. -/
def UpdateDone (db : DB) (listID itemID : String) (done : Bool) : DB :=
  { db with items := db.items.map (fun it =>
      if itemMatches it listID itemID then { it with done := done } else it) }

/-- `DeleteItem`: `UPDATE items SET time_deleted = CURRENT_TIMESTAMP WHERE
list_id = ? AND id = ?`.  Soft delete. -/
def DeleteItem (db : DB) (listID itemID : String) (now : Nat) : DB :=
  { db with items := db.items.map (fun it =>
      if itemMatches it listID itemID then { it with timeDeleted := some now } else it) }

/-- `CreateSignIn`: `INSERT INTO sign_ins (id) VALUES (?)` with the randomly
generated 64-hex-char token passed in; `time_created` defaults to now. -/
def CreateSignIn (db : DB) (token : String) (now : Nat) : DB :=
  { db with signIns := db.signIns ++ [⟨token, now⟩] }

/-- `IsSignInValid`: `SELECT 1 FROM sign_ins WHERE id = ? AND time_created >
DATETIME('NOW', '-90 DAYS')`; true iff a row is found. -/
def IsSignInValid (db : DB) (id : String) (now : Nat) : Bool :=
  db.signIns.any (fun row => row.id == id && now < row.timeCreated + days90)

/-- `DeleteSignIn`: `DELETE FROM sign_ins WHERE id = ?`; idempotent. -/
def DeleteSignIn (db : DB) (id : String) : DB :=
  { db with signIns := db.signIns.filter (fun row => !(row.id == id)) }

/-! ## Go string helpers used by the handlers -/

/-- Go's `unicode.IsSpace`: ASCII whitespace, NEL, NBSP and the Unicode
`Zs` separators (the set `strings.TrimSpace` trims). -/
def goIsSpace (c : Char) : Bool :=
  [9, 10, 11, 12, 13, 32, 0x85, 0xA0, 0x1680, 0x2028, 0x2029, 0x202F,
    0x205F, 0x3000].contains c.toNat
  || (0x2000 ≤ c.toNat && c.toNat ≤ 0x200A)

/-- Go's `strings.TrimSpace`: drop leading and trailing whitespace. -/
def goTrimSpace (s : String) : String :=
  String.mk (((s.toList.dropWhile goIsSpace).reverse.dropWhile goIsSpace).reverse)

/-- Lowercase hex digit, as used by Go's `hex.EncodeToString`. -/
def hexLowChar (n : Nat) : Char := "0123456789abcdef".toList.getD n '0'

/-- Uppercase hex digit, as used by Go's `url.QueryEscape` percent-encoding. -/
def hexUpChar (n : Nat) : Char := "0123456789ABCDEF".toList.getD n '0'

/-- Go's `hex.EncodeToString` on a byte slice (two lowercase hex digits per
byte, high nibble first). -/
def hexEncode (bytes : List Nat) : String :=
  String.mk (bytes.flatMap (fun b => [hexLowChar (b % 256 / 16), hexLowChar (b % 16)]))

/-- UTF-8 encoding of a character, byte values as naturals. -/
def utf8Bytes (c : Char) : List Nat :=
  let n := c.toNat
  if n < 0x80 then [n]
  else if n < 0x800 then [0xC0 + n / 64, 0x80 + n % 64]
  else if n < 0x10000 then [0xE0 + n / 4096, 0x80 + n / 64 % 64, 0x80 + n % 64]
  else [0xF0 + n / 0x40000, 0x80 + n / 4096 % 64, 0x80 + n / 64 % 64, 0x80 + n % 64]

/-- Characters Go's `url.QueryEscape` leaves unescaped: alphanumerics and
`-._~`. -/
def queryUnescaped (c : Char) : Bool :=
  (0x61 ≤ c.toNat && c.toNat ≤ 0x7A) || (0x41 ≤ c.toNat && c.toNat ≤ 0x5A)
  || (0x30 ≤ c.toNat && c.toNat ≤ 0x39)
  || c == '-' || c == '_' || c == '.' || c == '~'

/-- Go's `url.QueryEscape`: space becomes `+`, unreserved characters pass
through, every other byte is percent-encoded with uppercase hex. -/
def goQueryEscape (s : String) : String :=
  String.mk (s.toList.flatMap (fun c =>
    if queryUnescaped c then [c]
    else if c == ' ' then ['+']
    else (utf8Bytes c).flatMap (fun b => ['%', hexUpChar (b / 16), hexUpChar (b % 16)])))

/-! ## HTTP requests and responses -/

/-- The parts of an `http.Request` the handlers read.  `form` backs
`r.FormValue`, `query` backs `r.URL.Query().Get`, `cookies` backs
`r.Cookie`, and `scheme` is `r.URL.Scheme`. -/
structure Request where
  method : String
  path : String
  scheme : String
  query : List (String × String)
  form : List (String × String)
  cookies : List (String × String)

/-- `r.FormValue(key)`: first value for the key, or `""` if absent. -/
def formValue (r : Request) (key : String) : String :=
  ((r.form.find? (fun kv => kv.1 == key)).map (fun kv => kv.2)).getD ""

/-- `r.URL.Query().Get(key)`: first value for the key, or `""` if absent. -/
def queryGet (r : Request) (key : String) : String :=
  ((r.query.find? (fun kv => kv.1 == key)).map (fun kv => kv.2)).getD ""

/-- `r.Cookie(name)`: first cookie with the name, or an error (`none`) if
absent. -/
def reqCookie (r : Request) (name : String) : Option String :=
  (r.cookies.find? (fun kv => kv.1 == name)).map (fun kv => kv.2)

/-- A `Set-Cookie` produced via `http.SetCookie`.  `maxAge = 0` means the
`Max-Age` attribute is omitted (a session cookie). -/
structure SetCookie where
  name : String
  value : String
  maxAge : Int
  path : String
  secure : Bool
  httpOnly : Bool
  sameSiteStrict : Bool
deriving Repr, DecidableEq

/-- Data handed to the home template (the anonymous struct in `home`). -/
structure HomeData where
  token : String
  lists : List ListOut
  showSignIn : Bool
  showSignOut : Bool
  returnURL : String
  signInError : Bool
deriving Repr, DecidableEq

/-- Data handed to the list template (the anonymous struct in `showList`). -/
structure ListPageData where
  token : String
  list : ListOut
  showDelete : Bool
deriving Repr, DecidableEq

/-- Response body: empty (redirects), plain text (`http.Error`,
`http.NotFound`), or a rendered template with its data. -/
inductive Body where
  | empty
  | text (s : String)
  | homePage (data : HomeData)
  | listPage (data : ListPageData)
deriving Repr, DecidableEq

/-- An HTTP response as the handlers construct it. -/
structure Response where
  status : Nat
  headers : List (String × String)
  setCookies : List SetCookie
  body : Body
deriving Repr, DecidableEq

/-- `http.Redirect(w, r, loc, http.StatusFound)`. -/
def redirect302 (loc : String) : Response :=
  ⟨302, [("Location", loc)], [], .empty⟩

/-- `http.NotFound(w, r)`. -/
def notFoundResp : Response :=
  ⟨404, [], [], .text "404 page not found\n"⟩

/-- The 405 response of the `csrf` wrapper: `Allow: POST` plus
`http.Error(w, "405 method not allowed", 405)`. -/
def methodNotAllowedResp : Response :=
  ⟨405, [("Allow", "POST")], [], .text "405 method not allowed\n"⟩

/-- The 400 response of the `csrf` wrapper:
`http.Error(w, "invalid CSRF token or cookie", 400)`. -/
def badCSRFResp : Response :=
  ⟨400, [], [], .text "invalid CSRF token or cookie\n"⟩

/-! ## Server configuration and handlers (server.go, token-based design) -/

/-- Server fields the handlers read.  `bcryptOK hash password` abstracts
`bcrypt.CompareHashAndPassword(hash, password) == nil`. -/
structure Config where
  username : String
  passwordHash : String
  showLists : Bool
  bcryptOK : String → String → Bool

/-- A handler is a pure function from request and database state to a
response and the resulting database state. -/
def Handler : Type := Request → DB → Response × DB

/-- `getSignInCookie`: the `sign-in` cookie value, or `""` if absent. -/
def getSignInCookie (r : Request) : String :=
  (reqCookie r "sign-in").getD ""

/-- `isSignedIn`: true when no username is configured, otherwise whether the
`sign-in` cookie is a currently-valid sign-in token. -/
def isSignedIn (cfg : Config) (r : Request) (db : DB) (now : Nat) : Bool :=
  if cfg.username = "" then true
  else IsSignInValid db (getSignInCookie r) now

/-- The `signedIn` middleware: redirect to `/` with the requested path as
`return-url` unless the request is signed in. -/
def signedInGuard (cfg : Config) (now : Nat) (h : Handler) : Handler :=
  fun r db =>
    if isSignedIn cfg r db now then h r db
    else (redirect302 ("/?return-url=" ++ goQueryEscape r.path), db)

/-- The `csrf` middleware: require POST (else 405 with `Allow: POST`) and
require the `csrf-token` form field to equal the `csrf-token` cookie
(else 400). -/
def csrf (h : Handler) : Handler :=
  fun r db =>
    if r.method ≠ "POST" then (methodNotAllowedResp, db)
    else
      match reqCookie r "csrf-token" with
      | none => (badCSRFResp, db)
      | some c => if formValue r "csrf-token" = c then h r db else (badCSRFResp, db)

/-- The `sign-in` cookie set on successful sign-in. -/
def signInSetCookie (r : Request) (token : String) : SetCookie :=
  ⟨"sign-in", token, 90 * 24 * 60 * 60, "/", r.scheme == "https", true, true⟩

/-- The `return-url` form value with its default of `/`. -/
def signInReturnURL (r : Request) : String :=
  if formValue r "return-url" = "" then "/" else formValue r "return-url"

/-- The `signIn` handler.  `token` is the fresh 32-byte random hex token
`CreateSignIn` would generate. -/
def signIn (cfg : Config) (token : String) (now : Nat) : Handler :=
  fun r db =>
    let username := goTrimSpace (formValue r "username")
    let password := formValue r "password"
    if username ≠ cfg.username ∨ cfg.bcryptOK cfg.passwordHash password = false then
      (redirect302 ("/?error=sign-in&return-url=" ++ goQueryEscape (signInReturnURL r)), db)
    else
      ({ status := 302,
         headers := [("Location", signInReturnURL r)],
         setCookies := [signInSetCookie r token],
         body := .empty },
       CreateSignIn db token now)

/-- The `sign-out` clearing cookie (`MaxAge = -1`). -/
def signOutSetCookie (r : Request) : SetCookie :=
  ⟨"sign-in", "", -1, "/", r.scheme == "https", true, true⟩

/-- The `signOut` handler: clear the cookie, delete the sign-in row,
redirect home. -/
def signOut : Handler :=
  fun r db =>
    ({ redirect302 "/" with setCookies := [signOutSetCookie r] },
     DeleteSignIn db (getSignInCookie r))

/-- The cookie minted by `getCSRFToken` when no token is present. -/
def csrfSetCookie (r : Request) (token : String) : SetCookie :=
  ⟨"csrf-token", token, 0, "/", r.scheme == "https", true, true⟩

/-- `getCSRFToken`: reuse a non-empty `csrf-token` cookie, otherwise mint a
fresh token (hex of 16 random bytes, passed in as `freshBytes`) and set the
cookie.  Returns the token and the cookies set. -/
def getCSRFToken (freshBytes : List Nat) (r : Request) : String × List SetCookie :=
  match reqCookie r "csrf-token" with
  | some v =>
    if v ≠ "" then (v, [])
    else (hexEncode freshBytes, [csrfSetCookie r (hexEncode freshBytes)])
  | none => (hexEncode freshBytes, [csrfSetCookie r (hexEncode freshBytes)])

/-- The `home` handler: fetch lists when enabled, compute the CSRF token and
render the home template. -/
def home (cfg : Config) (freshBytes : List Nat) (now : Nat) : Handler :=
  fun r db =>
    let lists := if cfg.showLists then GetLists db else []
    let signed := isSignedIn cfg r db now
    let (token, cookies) := getCSRFToken freshBytes r
    ({ status := 200,
       headers := [],
       setCookies := cookies,
       body := .homePage
         { token := token,
           lists := lists,
           showSignIn := !signed,
           showSignOut := cfg.username ≠ "" && signed,
           returnURL := queryGet r "return-url",
           signInError := queryGet r "error" == "sign-in" } },
     db)

/-- The `showList` handler: the list id is the path after `/lists/`; 404 on
the not-found sentinel, otherwise render the list template. -/
def showList (freshBytes : List Nat) : Handler :=
  fun r db =>
    let id := r.path.drop "/lists/".length
    match GetList db id with
    | none => (notFoundResp, db)
    | some list =>
      let (token, cookies) := getCSRFToken freshBytes r
      ({ status := 200,
         headers := [],
         setCookies := cookies,
         body := .listPage
           { token := token,
             list := list,
             showDelete := queryGet r "delete" ≠ "" } },
       db)

/-- The `createList` handler.  `newID` is the random 10-consonant id
`CreateList` would generate. -/
def createList (newID : String) (now : Nat) : Handler :=
  fun r db =>
    let name := goTrimSpace (formValue r "name")
    if name = "" then (redirect302 "/", db)
    else (redirect302 ("/lists/" ++ newID), CreateList db newID name now)

/-- The `deleteList` handler. -/
def deleteList (now : Nat) : Handler :=
  fun r db =>
    (redirect302 "/", DeleteList db (formValue r "list-id") now)

/-- The `addItem` handler: 404 if the list doesn't exist, no-op redirect on
an empty (trimmed) description, otherwise insert the item. -/
def addItem (now : Nat) : Handler :=
  fun r db =>
    let listID := formValue r "list-id"
    match GetList db listID with
    | none => (notFoundResp, db)
    | some list =>
      let description := goTrimSpace (formValue r "description")
      if description = "" then (redirect302 ("/lists/" ++ list.id), db)
      else (redirect302 ("/lists/" ++ list.id), (AddItem db list.id description now).1)

/-- The `updateDone` handler. -/
def updateDone : Handler :=
  fun r db =>
    let listID := formValue r "list-id"
    let itemID := formValue r "item-id"
    let done := formValue r "done" == "on"
    (redirect302 ("/lists/" ++ listID), UpdateDone db listID itemID done)

/-- The `deleteItem` handler. -/
def deleteItemH (now : Nat) : Handler :=
  fun r db =>
    let listID := formValue r "list-id"
    let itemID := formValue r "item-id"
    (redirect302 ("/lists/" ++ listID), DeleteItem db listID itemID now)

/-! ## Rendered form tokens (templates.go)

Both templates put `value="{{ $.Token }}"` as the `csrf-token` hidden field
of every form; these functions list those embedded values in page order. -/

/-- The csrf hidden-field values of the home page: the sign-out form (when
shown), then either the sign-in form or the create-list form. -/
def homeFormTokens (d : HomeData) : List String :=
  (if d.showSignOut then [d.token] else [])
    ++ (if d.showSignIn then [d.token] else [d.token])

/-- The csrf hidden-field values of the list page: the delete-list form
(when shown), an update-done and a delete-item form per item, and the
add-item form. -/
def listFormTokens (d : ListPageData) : List String :=
  (if d.showDelete then [d.token] else [])
    ++ d.list.items.flatMap (fun _ => [d.token, d.token])
    ++ [d.token]

/-- The csrf hidden-field values rendered in a response's body. -/
def Response.formTokens (resp : Response) : List String :=
  match resp.body with
  | .homePage d => homeFormTokens d
  | .listPage d => listFormTokens d
  | _ => []

/-- Replace the `password` form entry of a request, leaving every other
form entry in place. -/
def Request.withPassword (r : Request) (p : String) : Request :=
  { r with form := ("password", p) :: r.form.filter (fun kv => !(kv.1 == "password")) }

/-! ## Helper lemmas -/

/-- Mapping a conditional update over a list does not change a projection
the update preserves. -/
theorem map_ite_proj {α β : Type} (l : List α) (p : α → Prop) [DecidablePred p]
    (upd : α → α) (proj : α → β) (h : ∀ a, proj (upd a) = proj a) :
    (l.map (fun a => if p a then upd a else a)).map proj = l.map proj := by
  induction l with
  | nil => rfl
  | cons hd tl ih =>
    simp only [List.map_cons, ih, List.cons.injEq, and_true]
    split
    · exact h hd
    · rfl

/-- A conditional update whose condition never fires is the identity map. -/
theorem map_ite_id {α : Type} (l : List α) (p : α → Prop) [DecidablePred p] (upd : α → α)
    (h : ∀ a ∈ l, ¬ p a) :
    l.map (fun a => if p a then upd a else a) = l := by
  induction l with
  | nil => rfl
  | cons hd tl ih =>
    simp only [List.map_cons, if_neg (h hd (List.mem_cons_self hd tl)),
      List.cons.injEq, true_and]
    exact ih (fun a ha => h a (List.mem_cons_of_mem hd ha))

/-- Membership characterization of `GetLists`. -/
theorem mem_GetLists (db : DB) (o : ListOut) :
    o ∈ GetLists db ↔ ∃ row ∈ db.lists, row.timeDeleted = none ∧ o = listRowOut row := by
  unfold GetLists
  rw [List.mem_map]
  constructor
  · rintro ⟨row, hrow, rfl⟩
    rw [(List.perm_insertionSort listRowLE _).mem_iff, List.mem_filter] at hrow
    exact ⟨row, hrow.1, Option.isNone_iff_eq_none.mp hrow.2, rfl⟩
  · rintro ⟨row, hrow, hdel, rfl⟩
    refine ⟨row, ?_, rfl⟩
    rw [(List.perm_insertionSort listRowLE _).mem_iff, List.mem_filter]
    exact ⟨hrow, by simp [hdel]⟩

/-- Membership characterization of `getListItems`. -/
theorem mem_getListItems (db : DB) (id : String) (io : ItemOut) :
    io ∈ getListItems db id ↔
      ∃ it ∈ db.items, it.listId = id ∧ it.timeDeleted = none ∧ io = itemRowOut it := by
  unfold getListItems
  rw [List.mem_map]
  constructor
  · rintro ⟨it, hit, rfl⟩
    rw [(List.perm_insertionSort itemRowLE _).mem_iff, List.mem_filter] at hit
    have h2 := hit.2
    simp only [Bool.and_eq_true, beq_iff_eq, Option.isNone_iff_eq_none] at h2
    exact ⟨it, hit.1, h2.1, h2.2, rfl⟩
  · rintro ⟨it, hit, hlid, hdel, rfl⟩
    refine ⟨it, ?_, rfl⟩
    rw [(List.perm_insertionSort itemRowLE _).mem_iff, List.mem_filter]
    exact ⟨hit, by simp [hlid, hdel]⟩

/-- Every form token on the home page equals the page data's token. -/
theorem mem_homeFormTokens (d : HomeData) (t : String) (ht : t ∈ homeFormTokens d) :
    t = d.token := by
  unfold homeFormTokens at ht
  rcases List.mem_append.mp ht with h | h <;> split at h <;> simp_all

/-- Every form token on the list page equals the page data's token. -/
theorem mem_listFormTokens (d : ListPageData) (t : String) (ht : t ∈ listFormTokens d) :
    t = d.token := by
  unfold listFormTokens at ht
  rcases List.mem_append.mp ht with h | h
  · rcases List.mem_append.mp h with h' | h'
    · split at h' <;> simp_all
    · rcases List.mem_flatMap.mp h' with ⟨_, _, hmem⟩
      simp only [List.mem_cons, List.not_mem_nil, or_false] at hmem
      rcases hmem with h'' | h'' <;> exact h''
  · simp_all

/-- The character list of `hexEncode`. -/
theorem hexEncode_toList (bytes : List Nat) :
    (hexEncode bytes).toList
      = bytes.flatMap (fun b => [hexLowChar (b % 256 / 16), hexLowChar (b % 16)]) := rfl

/-- `hexEncode` yields two characters per byte. -/
theorem hexEncode_length (bytes : List Nat) :
    (hexEncode bytes).toList.length = 2 * bytes.length := by
  rw [hexEncode_toList]
  induction bytes with
  | nil => rfl
  | cons b bs ih => simp [ih]; omega

/-- A hex digit with index below 16 is a lowercase hex character. -/
theorem hexLowChar_mem (n : Nat) (h : n < 16) :
    hexLowChar n ∈ "0123456789abcdef".toList := by
  interval_cases n <;> decide

/-- All characters of `hexEncode` are lowercase hex characters. -/
theorem hexEncode_chars (bytes : List Nat) (c : Char) (hc : c ∈ (hexEncode bytes).toList) :
    c ∈ "0123456789abcdef".toList := by
  rw [hexEncode_toList] at hc
  rcases List.mem_flatMap.mp hc with ⟨b, _, hmem⟩
  have hdiv : b % 256 / 16 < 16 :=
    (Nat.div_lt_iff_lt_mul (by omega)).mpr (Nat.mod_lt _ (by omega))
  have hmod : b % 16 < 16 := Nat.mod_lt _ (by omega)
  simp only [List.mem_cons, List.not_mem_nil, or_false] at hmem
  rcases hmem with h | h
  · exact h ▸ hexLowChar_mem _ hdiv
  · exact h ▸ hexLowChar_mem _ hmod

/-- Finding a key other than `password` is unaffected by removing the
`password` entries. -/
theorem find?_filter_password (l : List (String × String)) (k : String) (hk : k ≠ "password") :
    (l.filter (fun kv => !(kv.1 == "password"))).find? (fun kv => kv.1 == k)
      = l.find? (fun kv => kv.1 == k) := by
  induction l with
  | nil => rfl
  | cons hd tl ih =>
    by_cases hp : hd.1 = "password"
    · have h1 : (hd.1 == "password") = true := beq_iff_eq.mpr hp
      have h2 : (hd.1 == k) = false :=
        beq_eq_false_iff_ne.mpr (fun h => hk (hp ▸ h).symm)
      simp only [List.filter_cons, h1, Bool.not_true, Bool.false_eq_true, if_false,
        List.find?_cons, h2, cond_false]
      exact ih
    · have h1 : (hd.1 == "password") = false := beq_eq_false_iff_ne.mpr hp
      by_cases he : hd.1 = k
      · have h2 : (hd.1 == k) = true := beq_iff_eq.mpr he
        simp only [List.filter_cons, h1, Bool.not_false, if_true, List.find?_cons, h2, cond_true]
      · have h2 : (hd.1 == k) = false := beq_eq_false_iff_ne.mpr he
        simp only [List.filter_cons, h1, Bool.not_false, if_true, List.find?_cons, h2, cond_false]
        exact ih

/-- `withPassword` sets the `password` form value. -/
theorem formValue_withPassword_self (r : Request) (p : String) :
    formValue (r.withPassword p) "password" = p := by
  simp [formValue, Request.withPassword, List.find?_cons]

/-- `withPassword` leaves every other form value unchanged. -/
theorem formValue_withPassword_ne (r : Request) (p k : String) (hk : k ≠ "password") :
    formValue (r.withPassword p) k = formValue r k := by
  have h1 : (("password" : String) == k) = false :=
    beq_eq_false_iff_ne.mpr (fun h => hk h.symm)
  simp only [formValue, Request.withPassword, List.find?_cons, h1, cond_false]
  rw [find?_filter_password _ _ hk]

/-- `signIn` on a failed credential check: error redirect, no cookie, no
state change. -/
theorem signIn_fail (cfg : Config) (token : String) (now : Nat) (r : Request) (db : DB)
    (h : goTrimSpace (formValue r "username") ≠ cfg.username
      ∨ cfg.bcryptOK cfg.passwordHash (formValue r "password") = false) :
    signIn cfg token now r db
      = (redirect302 ("/?error=sign-in&return-url=" ++ goQueryEscape (signInReturnURL r)), db) := by
  unfold signIn
  rw [if_pos h]

/-- `signIn` on a successful credential check: set the token cookie and
insert the sign-in row. -/
theorem signIn_success (cfg : Config) (token : String) (now : Nat) (r : Request) (db : DB)
    (h1 : goTrimSpace (formValue r "username") = cfg.username)
    (h2 : cfg.bcryptOK cfg.passwordHash (formValue r "password") = true) :
    signIn cfg token now r db
      = ({ status := 302,
           headers := [("Location", signInReturnURL r)],
           setCookies := [signInSetCookie r token],
           body := .empty },
         CreateSignIn db token now) := by
  unfold signIn
  rw [if_neg]
  push_neg
  exact ⟨h1, by simp [h2]⟩

/-- `getCSRFToken` reuses a non-empty cookie token without setting a
cookie. -/
theorem getCSRFToken_reuse (fb : List Nat) (r : Request) (c : String)
    (hc : reqCookie r "csrf-token" = some c) (hne : c ≠ "") :
    getCSRFToken fb r = (c, []) := by
  simp [getCSRFToken, hc, hne]

/-- `getCSRFToken` mints a fresh token and sets the cookie when the cookie
is absent or empty. -/
theorem getCSRFToken_mint (fb : List Nat) (r : Request)
    (hc : reqCookie r "csrf-token" = none ∨ reqCookie r "csrf-token" = some "") :
    getCSRFToken fb r = (hexEncode fb, [csrfSetCookie r (hexEncode fb)]) := by
  rcases hc with hc | hc <;> simp [getCSRFToken, hc]

/-- The parts of the `home` response: cookies from `getCSRFToken` and the
home template data with its token. -/
theorem home_parts (cfg : Config) (fb : List Nat) (now : Nat) (r : Request) (db : DB) :
    (home cfg fb now r db).1.setCookies = (getCSRFToken fb r).2
    ∧ (home cfg fb now r db).1.formTokens
        = homeFormTokens
            { token := (getCSRFToken fb r).1,
              lists := if cfg.showLists then GetLists db else [],
              showSignIn := !(isSignedIn cfg r db now),
              showSignOut := cfg.username ≠ "" && isSignedIn cfg r db now,
              returnURL := queryGet r "return-url",
              signInError := queryGet r "error" == "sign-in" } := by
  unfold home
  rcases he : getCSRFToken fb r with ⟨tok, cks⟩
  simp [he, Response.formTokens]

/-- The parts of the `showList` response when the list exists. -/
theorem showList_parts (fb : List Nat) (r : Request) (db : DB) (l : ListOut)
    (hl : GetList db (r.path.drop "/lists/".length) = some l) :
    (showList fb r db).1.setCookies = (getCSRFToken fb r).2
    ∧ (showList fb r db).1.formTokens
        = listFormTokens
            { token := (getCSRFToken fb r).1, list := l,
              showDelete := queryGet r "delete" ≠ "" } := by
  unfold showList
  rcases he : getCSRFToken fb r with ⟨tok, cks⟩
  simp [hl, he, Response.formTokens]

/-! ## Claim theorems -/

/-- Claim C1 counterexample: at a state holding a sign-in row whose age is
exactly 90 days, `IsSignInValid` returns false although a row with that ID
exists and its age is at most 90 days, so the claimed "iff age ≤ 90 days"
fails at the boundary. -/
theorem claim_C1_counterexample :
    IsSignInValid ⟨[], [], [⟨"t", 0⟩], 1⟩ "t" days90 = false
    ∧ ∃ row ∈ (DB.mk [] [] [⟨"t", 0⟩] 1).signIns,
        row.id = "t" ∧ days90 - row.timeCreated ≤ days90 := by
  refine ⟨by decide, ⟨"t", 0⟩, ?_, rfl, Nat.sub_le _ _⟩
  exact List.mem_cons_self _ _

/-- Claim C1 (amended): for every storage state, `IsSignInValid t` is true
iff a `sign_ins` row with ID `t` exists and its age since creation is
strictly less than 90 days; and after `DeleteSignIn t`, `IsSignInValid t`
is false. -/
theorem claim_C1_spec (db : DB) (t : String) (now : Nat) :
    (IsSignInValid db t now = true ↔
      ∃ row ∈ db.signIns, row.id = t ∧ now - row.timeCreated < days90)
    ∧ IsSignInValid (DeleteSignIn db t) t now = false := by
  have hd90 : 0 < days90 := by decide
  constructor
  · rw [IsSignInValid, List.any_eq_true]
    constructor
    · rintro ⟨row, hmem, hcond⟩
      simp only [Bool.and_eq_true, beq_iff_eq, decide_eq_true_eq] at hcond
      exact ⟨row, hmem, hcond.1, by omega⟩
    · rintro ⟨row, hmem, hid, hage⟩
      refine ⟨row, hmem, ?_⟩
      simp only [Bool.and_eq_true, beq_iff_eq, decide_eq_true_eq]
      exact ⟨hid, by omega⟩
  · rw [IsSignInValid]
    rw [List.any_eq_false]
    intro row hrow
    rw [DeleteSignIn] at hrow
    have := (List.mem_filter.mp hrow).2
    simp only [Bool.not_eq_true', beq_eq_false_iff_ne] at this
    simp [this]

/-- Claim C1 witness: the amended characterization evaluated at a concrete
one-row state. -/
theorem claim_C1_witness :
    (IsSignInValid ⟨[], [], [⟨"s", 10⟩], 1⟩ "s" 20 = true ↔
      ∃ row ∈ (DB.mk [] [] [⟨"s", 10⟩] 1).signIns,
        row.id = "s" ∧ 20 - row.timeCreated < days90)
    ∧ IsSignInValid (DeleteSignIn ⟨[], [], [⟨"s", 10⟩], 1⟩ "s") "s" 20 = false :=
  claim_C1_spec ⟨[], [], [⟨"s", 10⟩], 1⟩ "s" 20

/-- Claim C6: `GetLists` returns exactly the non-soft-deleted lists, ordered
by creation time descending, each without items; in particular two lists
created in sequence come back most-recent first. -/
theorem claim_C6_spec :
    (∀ db o, o ∈ GetLists db ↔ ∃ row ∈ db.lists, row.timeDeleted = none ∧ o = listRowOut row)
    ∧ (∀ db, (GetLists db).Pairwise (fun a b => b.timeCreated ≤ a.timeCreated))
    ∧ (∀ db o, o ∈ GetLists db → o.items = [])
    ∧ (∀ id1 n1 t1 id2 n2 t2, t1 < t2 →
        GetLists (CreateList (CreateList DB.empty id1 n1 t1) id2 n2 t2)
          = [⟨id2, t2, n2, []⟩, ⟨id1, t1, n1, []⟩]) := by
  refine ⟨mem_GetLists, ?_, ?_, ?_⟩
  · intro db
    unfold GetLists
    exact (List.sorted_insertionSort listRowLE _).map _ (fun a b h => h)
  · intro db o ho
    obtain ⟨row, _, _, rfl⟩ := (mem_GetLists db o).mp ho
    rfl
  · intro id1 n1 t1 id2 n2 t2 h
    have hnot : ¬ listRowLE ⟨id1, t1, n1, none⟩ ⟨id2, t2, n2, none⟩ := by
      show ¬ (t2 ≤ t1)
      omega
    simp [GetLists, CreateList, DB.empty, List.insertionSort, List.orderedInsert,
      if_neg hnot, listRowOut]

/-- Claim C6 witness: two concrete lists created in sequence are returned
most-recent first. -/
theorem claim_C6_witness :
    GetLists (CreateList (CreateList DB.empty "bcd" "first" 1) "fgh" "second" 2)
      = [⟨"fgh", 2, "second", []⟩, ⟨"bcd", 1, "first", []⟩] :=
  claim_C6_spec.2.2.2 "bcd" "first" 1 "fgh" "second" 2 (by decide)

/-- Claim C7: `GetList` returns the not-found sentinel (`none`, not an
error) exactly when no live list has the id; otherwise it returns the list
with exactly its non-soft-deleted items, ordered by item ID ascending. -/
theorem claim_C7_spec (db : DB) (id : String) :
    (GetList db id = none ↔ ∀ row ∈ db.lists, row.id = id → row.timeDeleted ≠ none)
    ∧ ∀ l, GetList db id = some l →
        (∃ row ∈ db.lists, row.id = id ∧ row.timeDeleted = none
          ∧ l.id = row.id ∧ l.name = row.name)
        ∧ (∀ io, io ∈ l.items ↔
            ∃ it ∈ db.items, it.listId = id ∧ it.timeDeleted = none ∧ io = itemRowOut it)
        ∧ ∃ rows : List ItemRow, l.items = rows.map itemRowOut
            ∧ (rows.map ItemRow.id).Pairwise (fun a b => a ≤ b) := by
  constructor
  · constructor
    · intro hnone row hrow hid hdel
      unfold GetList at hnone
      cases hf : db.lists.find? (fun row => row.id == id && row.timeDeleted.isNone) with
      | none =>
        have := List.find?_eq_none.mp hf row hrow
        simp [hid, hdel] at this
      | some r => rw [hf] at hnone; exact Option.noConfusion hnone
    · intro hall
      unfold GetList
      cases hf : db.lists.find? (fun row => row.id == id && row.timeDeleted.isNone) with
      | none => rfl
      | some row =>
        exfalso
        have hp := List.find?_some hf
        simp only [Bool.and_eq_true, beq_iff_eq, Option.isNone_iff_eq_none] at hp
        exact hall row (List.mem_of_find?_eq_some hf) hp.1 hp.2
  · intro l hl
    unfold GetList at hl
    cases hf : db.lists.find? (fun row => row.id == id && row.timeDeleted.isNone) with
    | none => rw [hf] at hl; exact Option.noConfusion hl
    | some row =>
      rw [hf] at hl
      have hp := List.find?_some hf
      simp only [Bool.and_eq_true, beq_iff_eq, Option.isNone_iff_eq_none] at hp
      have hlval : l = ⟨row.id, 0, row.name, getListItems db id⟩ :=
        (Option.some.injEq _ _).mp hl.symm
      subst hlval
      refine ⟨⟨row, List.mem_of_find?_eq_some hf, hp.1, hp.2, rfl, rfl⟩,
        fun io => mem_getListItems db id io, ?_⟩
      exact ⟨_, rfl, (List.sorted_insertionSort itemRowLE _).map _ (fun a b h => h)⟩

/-- Claim C7 witness: the characterization evaluated at a concrete state
with one live list holding two items. -/
theorem claim_C7_witness :
    (GetList ⟨[⟨"x", 1, "L", none⟩], [⟨1, "x", 1, "a", false, none⟩], [], 2⟩ "y" = none
      ↔ ∀ row ∈ [ListRow.mk "x" 1 "L" none], row.id = "y" → row.timeDeleted ≠ none)
    ∧ ((GetList ⟨[⟨"x", 1, "L", none⟩], [⟨1, "x", 1, "a", false, none⟩], [], 2⟩ "x"
          = some ⟨"x", 0, "L", [⟨"1", "a", false⟩]⟩)
        → (∃ row ∈ [ListRow.mk "x" 1 "L" none], row.id = "x" ∧ row.timeDeleted = none
            ∧ ("x" : String) = row.id ∧ ("L" : String) = row.name)) := by
  constructor
  · exact (claim_C7_spec ⟨[⟨"x", 1, "L", none⟩], [⟨1, "x", 1, "a", false, none⟩], [], 2⟩ "y").1
  · intro hsome
    have h := ((claim_C7_spec
      ⟨[⟨"x", 1, "L", none⟩], [⟨1, "x", 1, "a", false, none⟩], [], 2⟩ "x").2 _ hsome).1
    obtain ⟨row, hmem, hid, hdel, hlid, hlname⟩ := h
    exact ⟨row, hmem, hid, hdel, hlid, hlname⟩

/-- Claim C8: soft-deleted lists and items never appear in any query
result, while `DeleteList` and `DeleteItem` only set the `time_deleted`
marker and preserve every row and every other column. -/
theorem claim_C8_spec :
    (∀ db o, o ∈ GetLists db → ∃ row ∈ db.lists, row.timeDeleted = none ∧ o = listRowOut row)
    ∧ (∀ db id l, GetList db id = some l →
        (∃ row ∈ db.lists, row.id = id ∧ row.timeDeleted = none)
        ∧ ∀ io ∈ l.items, ∃ it ∈ db.items, it.timeDeleted = none ∧ io = itemRowOut it)
    ∧ (∀ db id now,
        (DeleteList db id now).lists.map (fun row => (row.id, row.timeCreated, row.name))
          = db.lists.map (fun row => (row.id, row.timeCreated, row.name))
        ∧ (DeleteList db id now).items = db.items
        ∧ (DeleteList db id now).signIns = db.signIns)
    ∧ (∀ db lid iid now,
        (DeleteItem db lid iid now).items.map
            (fun it => (it.id, it.listId, it.timeCreated, it.description, it.done))
          = db.items.map (fun it => (it.id, it.listId, it.timeCreated, it.description, it.done))
        ∧ (DeleteItem db lid iid now).lists = db.lists
        ∧ (DeleteItem db lid iid now).signIns = db.signIns) := by
  refine ⟨?_, ?_, ?_, ?_⟩
  · intro db o ho
    exact (mem_GetLists db o).mp ho
  · intro db id l hl
    unfold GetList at hl
    cases hf : db.lists.find? (fun row => row.id == id && row.timeDeleted.isNone) with
    | none => rw [hf] at hl; exact Option.noConfusion hl
    | some row =>
      rw [hf] at hl
      have hp := List.find?_some hf
      simp only [Bool.and_eq_true, beq_iff_eq, Option.isNone_iff_eq_none] at hp
      have hlval : l = ⟨row.id, 0, row.name, getListItems db id⟩ :=
        (Option.some.injEq _ _).mp hl.symm
      subst hlval
      refine ⟨⟨row, List.mem_of_find?_eq_some hf, hp.1, hp.2⟩, ?_⟩
      intro io hio
      obtain ⟨it, hit, _, hdel, rfl⟩ := (mem_getListItems db id io).mp hio
      exact ⟨it, hit, hdel, rfl⟩
  · intro db id now
    refine ⟨?_, rfl, rfl⟩
    exact map_ite_proj _ _ _ _ (fun a => rfl)
  · intro db lid iid now
    refine ⟨?_, rfl, rfl⟩
    exact map_ite_proj _ _ _ _ (fun a => rfl)

/-- Claim C8 witness: the invariant evaluated at a concrete state reached
by deleting a list and an item. -/
theorem claim_C8_witness :
    (GetList (DeleteItem ⟨[⟨"x", 1, "L", none⟩], [⟨1, "x", 1, "a", false, none⟩], [], 2⟩
        "x" "1" 5) "x" = some ⟨"x", 0, "L", []⟩
      → (∃ row ∈ (DeleteItem ⟨[⟨"x", 1, "L", none⟩], [⟨1, "x", 1, "a", false, none⟩], [], 2⟩
            "x" "1" 5).lists, row.id = "x" ∧ row.timeDeleted = none))
    ∧ (DeleteItem ⟨[⟨"x", 1, "L", none⟩], [⟨1, "x", 1, "a", false, none⟩], [], 2⟩
        "x" "1" 5).items.map (fun it => (it.id, it.listId, it.timeCreated, it.description, it.done))
      = [(1, "x", 1, "a", false)] := by
  constructor
  · intro hsome
    exact ((claim_C8_spec.2.1 _ "x" _) hsome).1
  · exact (claim_C8_spec.2.2.2
      ⟨[⟨"x", 1, "L", none⟩], [⟨1, "x", 1, "a", false, none⟩], [], 2⟩ "x" "1" 5).1

/-- Claim C10: `UpdateDone` and `DeleteItem` match on both `list_id` and
item id: with no row matching both, the state is unchanged; and rows of
other lists are always preserved untouched. -/
theorem claim_C10_spec (db : DB) (lid iid : String) :
    ((∀ it ∈ db.items, ¬(it.listId = lid ∧ toString it.id = iid)) →
        (∀ d, UpdateDone db lid iid d = db) ∧ (∀ now, DeleteItem db lid iid now = db))
    ∧ (∀ d it, it ∈ db.items → it.listId ≠ lid → it ∈ (UpdateDone db lid iid d).items)
    ∧ (∀ now it, it ∈ db.items → it.listId ≠ lid → it ∈ (DeleteItem db lid iid now).items) := by
  have hmatch : ∀ it, it.listId ≠ lid → itemMatches it lid iid = false := by
    intro it hne
    unfold itemMatches
    simp [hne]
  refine ⟨?_, ?_, ?_⟩
  · intro hno
    have hfalse : ∀ it ∈ db.items, ¬ (itemMatches it lid iid = true) := by
      intro it hit htrue
      apply hno it hit
      simpa [itemMatches] using htrue
    constructor
    · intro d
      show { db with items := _ } = db
      rw [map_ite_id _ _ _ hfalse]
    · intro now
      show { db with items := _ } = db
      rw [map_ite_id _ _ _ hfalse]
  · intro d it hit hne
    unfold UpdateDone
    exact List.mem_map.mpr ⟨it, hit, by simp [hmatch it hne]⟩
  · intro now it hit hne
    unfold DeleteItem
    exact List.mem_map.mpr ⟨it, hit, by simp [hmatch it hne]⟩

/-- Claim C2: with a username configured, POST /sign-in succeeds exactly
when the trimmed submitted username equals the configured one and bcrypt
verification succeeds; success creates a sign-in row via `CreateSignIn` and
sets the `sign-in` cookie (HttpOnly, SameSite=Strict, Secure iff the scheme
is https, 90-day max-age) with a 302 to the form's return-url (default
`/`); mismatch yields a 302 to `/` with the error flag and the return-url,
and the response is independent of the submitted password. -/
theorem claim_C2_spec (cfg : Config) (token : String) (now : Nat) (r : Request) (db : DB)
    (hu : cfg.username ≠ "") :
    (goTrimSpace (formValue r "username") = cfg.username →
      cfg.bcryptOK cfg.passwordHash (formValue r "password") = true →
      signIn cfg token now r db
        = ({ status := 302,
             headers := [("Location", signInReturnURL r)],
             setCookies := [⟨"sign-in", token, 90 * 24 * 60 * 60, "/",
               r.scheme == "https", true, true⟩],
             body := .empty },
           CreateSignIn db token now))
    ∧ (goTrimSpace (formValue r "username") ≠ cfg.username
        ∨ cfg.bcryptOK cfg.passwordHash (formValue r "password") = false →
      signIn cfg token now r db
        = (redirect302 ("/?error=sign-in&return-url=" ++ goQueryEscape (signInReturnURL r)), db))
    ∧ (∀ p₁ p₂, cfg.bcryptOK cfg.passwordHash p₁ = false →
        cfg.bcryptOK cfg.passwordHash p₂ = false →
        signIn cfg token now (r.withPassword p₁) db
          = signIn cfg token now (r.withPassword p₂) db) := by
  refine ⟨?_, ?_, ?_⟩
  · intro h1 h2
    exact signIn_success cfg token now r db h1 h2
  · intro h
    exact signIn_fail cfg token now r db h
  · intro p₁ p₂ h₁ h₂
    have hru : ∀ p, signInReturnURL (r.withPassword p) = signInReturnURL r := by
      intro p
      unfold signInReturnURL
      rw [formValue_withPassword_ne r p "return-url" (by decide)]
    rw [signIn_fail cfg token now (r.withPassword p₁) db
        (Or.inr (by rw [formValue_withPassword_self]; exact h₁)),
      signIn_fail cfg token now (r.withPassword p₂) db
        (Or.inr (by rw [formValue_withPassword_self]; exact h₂)),
      hru p₁, hru p₂]

/-- Claim C2 witness: a concrete successful sign-in and a concrete failed
sign-in, both through the main theorem. -/
theorem claim_C2_witness :
    (signIn ⟨"admin", "HASH", false, fun h p => h == "HASH" && p == "pw"⟩ "tok" 7
        ⟨"POST", "/sign-in", "https", [],
          [("username", " admin "), ("password", "pw"), ("return-url", "/lists/abc")], []⟩
        DB.empty
      = ({ status := 302,
           headers := [("Location", "/lists/abc")],
           setCookies := [⟨"sign-in", "tok", 7776000, "/", true, true, true⟩],
           body := .empty },
         CreateSignIn DB.empty "tok" 7))
    ∧ (signIn ⟨"admin", "HASH", false, fun h p => h == "HASH" && p == "pw"⟩ "tok" 7
        ⟨"POST", "/sign-in", "http", [],
          [("username", "admin"), ("password", "bad")], []⟩
        DB.empty
      = (redirect302 "/?error=sign-in&return-url=%2F", DB.empty)) := by
  constructor
  · exact (claim_C2_spec ⟨"admin", "HASH", false, fun h p => h == "HASH" && p == "pw"⟩
      "tok" 7
      ⟨"POST", "/sign-in", "https", [],
        [("username", " admin "), ("password", "pw"), ("return-url", "/lists/abc")], []⟩
      DB.empty (by decide)).1 (by decide) (by decide)
  · exact (claim_C2_spec ⟨"admin", "HASH", false, fun h p => h == "HASH" && p == "pw"⟩
      "tok" 7
      ⟨"POST", "/sign-in", "http", [],
        [("username", "admin"), ("password", "bad")], []⟩
      DB.empty (by decide)).2.1 (Or.inr (by decide))

/-- Claim C3: on every guarded route, a request without a currently-valid
sign-in token is 302-redirected to `/` with the requested path as
`return-url` and the inner handler never runs; with no configured username
the guard always passes. -/
theorem claim_C3_spec :
    (∀ cfg now h r db, cfg.username ≠ "" →
      IsSignInValid db (getSignInCookie r) now = false →
      signedInGuard cfg now h r db
        = (redirect302 ("/?return-url=" ++ goQueryEscape r.path), db))
    ∧ (∀ cfg now h r db, cfg.username = "" →
      signedInGuard cfg now h r db = h r db) := by
  constructor
  · intro cfg now h r db hu hv
    have hs : isSignedIn cfg r db now = false := by simp [isSignedIn, hu, hv]
    simp [signedInGuard, hs]
  · intro cfg now h r db hu
    have hs : isSignedIn cfg r db now = true := by simp [isSignedIn, hu]
    simp [signedInGuard, hs]

/-- Claim C3 witness: a concrete unauthenticated request is redirected with
the escaped path, and the guard passes when no username is configured. -/
theorem claim_C3_witness :
    (signedInGuard ⟨"u", "H", false, fun _ _ => false⟩ 0 (fun _ dbx => (notFoundResp, dbx))
        ⟨"GET", "/lists/abc", "http", [], [], []⟩ DB.empty
      = (redirect302 "/?return-url=%2Flists%2Fabc", DB.empty))
    ∧ (signedInGuard ⟨"", "", false, fun _ _ => false⟩ 0 (fun _ dbx => (notFoundResp, dbx))
        ⟨"GET", "/lists/abc", "http", [], [], []⟩ DB.empty
      = (notFoundResp, DB.empty)) := by
  constructor
  · exact claim_C3_spec.1 ⟨"u", "H", false, fun _ _ => false⟩ 0
      (fun _ dbx => (notFoundResp, dbx)) ⟨"GET", "/lists/abc", "http", [], [], []⟩ DB.empty
      (by decide) (by decide)
  · exact claim_C3_spec.2 ⟨"", "", false, fun _ _ => false⟩ 0
      (fun _ dbx => (notFoundResp, dbx)) ⟨"GET", "/lists/abc", "http", [], [], []⟩ DB.empty
      (by decide)

/-- Claim C4: a CSRF-protected endpoint answers non-POST with 405 and an
`Allow: POST` header, rejects POST with 400 unless the `csrf-token` form
field equals the `csrf-token` cookie (a missing cookie always rejects), and
in both rejection cases the wrapped handler never runs and the state is
unchanged; on a match the wrapped handler runs. -/
theorem claim_C4_spec :
    (∀ h r db, r.method ≠ "POST" → csrf h r db = (methodNotAllowedResp, db))
    ∧ (∀ h r db, r.method = "POST" → reqCookie r "csrf-token" = none →
        csrf h r db = (badCSRFResp, db))
    ∧ (∀ h r db c, r.method = "POST" → reqCookie r "csrf-token" = some c →
        formValue r "csrf-token" ≠ c → csrf h r db = (badCSRFResp, db))
    ∧ (∀ h r db c, r.method = "POST" → reqCookie r "csrf-token" = some c →
        formValue r "csrf-token" = c → csrf h r db = h r db) := by
  refine ⟨?_, ?_, ?_, ?_⟩
  · intro h r db hm
    unfold csrf
    rw [if_pos hm]
  · intro h r db hm hc
    simp [csrf, hm, hc]
  · intro h r db c hm hc hne
    simp [csrf, hm, hc, hne]
  · intro h r db c hm hc heq
    simp [csrf, hm, hc, heq]

/-- Claim C4 witness: a GET is answered 405, a POST without the cookie and
a POST with a mismatched token are answered 400, each leaving the concrete
state unchanged. -/
theorem claim_C4_witness :
    (csrf (fun _ dbx => (redirect302 "/", dbx)) ⟨"GET", "/create-list", "http", [], [], []⟩
        DB.empty = (methodNotAllowedResp, DB.empty))
    ∧ (csrf (fun _ dbx => (redirect302 "/", dbx))
        ⟨"POST", "/create-list", "http", [], [("csrf-token", "x")], []⟩ DB.empty
      = (badCSRFResp, DB.empty))
    ∧ (csrf (fun _ dbx => (redirect302 "/", dbx))
        ⟨"POST", "/create-list", "http", [], [("csrf-token", "x")], [("csrf-token", "y")]⟩
        DB.empty
      = (badCSRFResp, DB.empty)) := by
  refine ⟨?_, ?_, ?_⟩
  · exact claim_C4_spec.1 (fun _ dbx => (redirect302 "/", dbx))
      ⟨"GET", "/create-list", "http", [], [], []⟩ DB.empty (by decide)
  · exact claim_C4_spec.2.1 (fun _ dbx => (redirect302 "/", dbx))
      ⟨"POST", "/create-list", "http", [], [("csrf-token", "x")], []⟩ DB.empty rfl rfl
  · exact claim_C4_spec.2.2.1 (fun _ dbx => (redirect302 "/", dbx))
      ⟨"POST", "/create-list", "http", [], [("csrf-token", "x")], [("csrf-token", "y")]⟩
      DB.empty "y" rfl rfl (by decide)

/-- Claim C5: on a successful render of the home or list page, a non-empty
`csrf-token` cookie is reused as the token of every form and no cookie is
set; otherwise a fresh 16-byte token (32 lowercase hex characters) is
minted, set as the cookie and embedded in every form. -/
theorem claim_C5_spec :
    (∀ cfg fb now r db c, reqCookie r "csrf-token" = some c → c ≠ "" →
      (home cfg fb now r db).1.setCookies = []
      ∧ ∀ t ∈ (home cfg fb now r db).1.formTokens, t = c)
    ∧ (∀ cfg fb now r db,
        reqCookie r "csrf-token" = none ∨ reqCookie r "csrf-token" = some "" →
      (home cfg fb now r db).1.setCookies = [csrfSetCookie r (hexEncode fb)]
      ∧ ∀ t ∈ (home cfg fb now r db).1.formTokens, t = hexEncode fb)
    ∧ (∀ fb r db c l, reqCookie r "csrf-token" = some c → c ≠ "" →
        GetList db (r.path.drop "/lists/".length) = some l →
      (showList fb r db).1.setCookies = []
      ∧ ∀ t ∈ (showList fb r db).1.formTokens, t = c)
    ∧ (∀ fb r db l,
        reqCookie r "csrf-token" = none ∨ reqCookie r "csrf-token" = some "" →
        GetList db (r.path.drop "/lists/".length) = some l →
      (showList fb r db).1.setCookies = [csrfSetCookie r (hexEncode fb)]
      ∧ ∀ t ∈ (showList fb r db).1.formTokens, t = hexEncode fb)
    ∧ (∀ fb, fb.length = 16 → (∀ b ∈ fb, b < 256) →
      (hexEncode fb).toList.length = 32
      ∧ ∀ c ∈ (hexEncode fb).toList, c ∈ "0123456789abcdef".toList) := by
  refine ⟨?_, ?_, ?_, ?_, ?_⟩
  · intro cfg fb now r db c hc hne
    have hg := getCSRFToken_reuse fb r c hc hne
    obtain ⟨hck, htok⟩ := home_parts cfg fb now r db
    refine ⟨by rw [hck, hg], ?_⟩
    intro t ht
    rw [htok] at ht
    have := mem_homeFormTokens _ t ht
    rw [this, hg]
  · intro cfg fb now r db hc
    have hg := getCSRFToken_mint fb r hc
    obtain ⟨hck, htok⟩ := home_parts cfg fb now r db
    refine ⟨by rw [hck, hg], ?_⟩
    intro t ht
    rw [htok] at ht
    have := mem_homeFormTokens _ t ht
    rw [this, hg]
  · intro fb r db c l hc hne hl
    have hg := getCSRFToken_reuse fb r c hc hne
    obtain ⟨hck, htok⟩ := showList_parts fb r db l hl
    refine ⟨by rw [hck, hg], ?_⟩
    intro t ht
    rw [htok] at ht
    have := mem_listFormTokens _ t ht
    rw [this, hg]
  · intro fb r db l hc hl
    have hg := getCSRFToken_mint fb r hc
    obtain ⟨hck, htok⟩ := showList_parts fb r db l hl
    refine ⟨by rw [hck, hg], ?_⟩
    intro t ht
    rw [htok] at ht
    have := mem_listFormTokens _ t ht
    rw [this, hg]
  · intro fb hlen hbytes
    refine ⟨?_, fun c hc => hexEncode_chars fb c hc⟩
    rw [hexEncode_length, hlen]

/-- Claim C5 witness: a concrete request carrying a cookie renders the home
page with no new cookie, a concrete bare request gets a minted cookie, and
a concrete 16-byte token has 32 lowercase hex characters. -/
theorem claim_C5_witness :
    ((home ⟨"", "", false, fun _ _ => false⟩ (List.range 16) 0
        ⟨"GET", "/", "http", [], [], [("csrf-token", "abc")]⟩ DB.empty).1.setCookies = [])
    ∧ ((home ⟨"", "", false, fun _ _ => false⟩ (List.range 16) 0
        ⟨"GET", "/", "http", [], [], []⟩ DB.empty).1.setCookies
      = [csrfSetCookie ⟨"GET", "/", "http", [], [], []⟩ (hexEncode (List.range 16))])
    ∧ (hexEncode (List.range 16)).toList.length = 32 := by
  refine ⟨?_, ?_, ?_⟩
  · exact (claim_C5_spec.1 ⟨"", "", false, fun _ _ => false⟩ (List.range 16) 0
      ⟨"GET", "/", "http", [], [], [("csrf-token", "abc")]⟩ DB.empty "abc" rfl
      (by decide)).1
  · exact (claim_C5_spec.2.1 ⟨"", "", false, fun _ _ => false⟩ (List.range 16) 0
      ⟨"GET", "/", "http", [], [], []⟩ DB.empty (Or.inl rfl)).1
  · exact (claim_C5_spec.2.2.2.2 (List.range 16) (by decide) (by decide)).1

/-- Claim C9: POST /create-list with a name that trims to empty, and POST
/add-item to an existing list with a description that trims to empty, each
answer with a 302 redirect, surface no error and leave the state
unchanged. -/
theorem claim_C9_spec :
    (∀ newID now r db, goTrimSpace (formValue r "name") = "" →
      createList newID now r db = (redirect302 "/", db))
    ∧ (∀ now r db l, GetList db (formValue r "list-id") = some l →
        goTrimSpace (formValue r "description") = "" →
        addItem now r db = (redirect302 ("/lists/" ++ l.id), db)) := by
  constructor
  · intro newID now r db h
    simp [createList, h]
  · intro now r db l hl hd
    simp [addItem, hl, hd]

/-- Claim C9 witness: a whitespace-only list name and a whitespace-only
item description are concrete no-op redirects. -/
theorem claim_C9_witness :
    (createList "bcdfghjklm" 3 ⟨"POST", "/create-list", "http", [], [("name", "  ")], []⟩
        DB.empty
      = (redirect302 "/", DB.empty))
    ∧ (addItem 3
        ⟨"POST", "/add-item", "http", [], [("list-id", "x"), ("description", " ")], []⟩
        ⟨[⟨"x", 1, "L", none⟩], [], [], 1⟩
      = (redirect302 "/lists/x", ⟨[⟨"x", 1, "L", none⟩], [], [], 1⟩)) := by
  constructor
  · exact claim_C9_spec.1 "bcdfghjklm" 3
      ⟨"POST", "/create-list", "http", [], [("name", "  ")], []⟩ DB.empty (by decide)
  · exact claim_C9_spec.2 3
      ⟨"POST", "/add-item", "http", [], [("list-id", "x"), ("description", " ")], []⟩
      ⟨[⟨"x", 1, "L", none⟩], [], [], 1⟩ ⟨"x", 0, "L", []⟩ (by decide) (by decide)

/-- Claim C10 witness: a non-matching update and delete leave a concrete
state unchanged, and an item of another list survives a matching delete. -/
theorem claim_C10_witness :
    (UpdateDone ⟨[], [⟨1, "x", 1, "a", false, none⟩], [], 2⟩ "y" "1" true
      = ⟨[], [⟨1, "x", 1, "a", false, none⟩], [], 2⟩)
    ∧ (DeleteItem ⟨[], [⟨1, "x", 1, "a", false, none⟩], [], 2⟩ "y" "1" 9
      = ⟨[], [⟨1, "x", 1, "a", false, none⟩], [], 2⟩)
    ∧ ItemRow.mk 1 "x" 1 "a" false none
        ∈ (DeleteItem ⟨[], [⟨1, "x", 1, "a", false, none⟩], [], 2⟩ "y" "7" 9).items := by
  have h := claim_C10_spec ⟨[], [⟨1, "x", 1, "a", false, none⟩], [], 2⟩ "y" "1"
  have hno : ∀ it ∈ (DB.mk [] [⟨1, "x", 1, "a", false, none⟩] [] 2).items,
      ¬(it.listId = "y" ∧ toString it.id = "1") := by decide
  refine ⟨(h.1 hno).1 true, (h.1 hno).2 9, ?_⟩
  exact (claim_C10_spec ⟨[], [⟨1, "x", 1, "a", false, none⟩], [], 2⟩ "y" "7").2.2 9
    ⟨1, "x", 1, "a", false, none⟩ (List.mem_cons_self _ _) (by decide)

end SimpleLists
